import Mathlib

set_option linter.unusedVariables false

/-!
Verification of the pattern-based source-repair scripts of the repository
(`simple_fix.py`, `smart_fix.py`, `final_fix.py`, `final_precise_fix.py`).

The scripts operate on plain text with Python `re.sub` (global, leftmost,
non-overlapping, greedy substitution).  We embed the exact regular
expressions used by the scripts as an executable abstract syntax
(`Regex`), give `re.sub` semantics by an executable backtracking matcher
(`mmatch` / `subNext` / `pysub`), and embed each script's rule table and
its file-processing loop over an explicit file-system state (`FS`).
-/

namespace MusicFix

/-- Character test for the Python regex class `\w` (ASCII word character). -/
def wordC (c : Char) : Bool := c.isAlphanum || c = '_'

/-- Character test for the Python regex class `\s` (whitespace). -/
def spaceC (c : Char) : Bool :=
  c = ' ' || c = '\t' || c = '\n' || c = '\r' || c = '\x0b' || c = '\x0c'

/-- Character test for the class `[a-zA-Z_]`. -/
def alphaU (c : Char) : Bool := c.isAlpha || c = '_'

/-- The single-quote character (written via its code point). -/
def sqc : Char := Char.ofNat 39

/-- The single-quote character as a one-character string. -/
def sqs : String := String.mk [sqc]

/-- Abstract syntax of the regular expressions appearing in the repair
scripts: literals, character classes, concatenation, greedy Kleene star
and numbered capturing groups (no alternation is used by any script). -/
inductive Regex where
  | eps
  | lit (c : Char)
  | cls (p : Char → Bool)
  | seq (a b : Regex)
  | star (r : Regex)
  | grp (i : Nat) (r : Regex)

/-- Concatenation of a list of regexes. -/
def rcat (rs : List Regex) : Regex := rs.foldr Regex.seq Regex.eps

/-- A literal string as a regex. -/
def rstr (s : String) : Regex := rcat (s.data.map Regex.lit)

/-- A negated character class `[^cs]`. -/
def rnot (cs : List Char) : Regex := Regex.cls (fun c => !(cs.contains c))

/-- Greedy `+` (one or more). -/
def rplus (r : Regex) : Regex := Regex.seq r (Regex.star r)

/-- The regex `\s*`. -/
def rws : Regex := Regex.star (Regex.cls spaceC)

/-- The regex `\w+`. -/
def rwp : Regex := rplus (Regex.cls wordC)

/-- Capture groups recorded during a match (latest binding first, as
Python keeps the last iteration of a repeated group). -/
abbrev Groups := List (Nat × List Char)

/-- Look up the latest binding of group `n` (Python `\n` in a template). -/
def lookupGrp (g : Groups) (n : Nat) : List Char :=
  match g.find? (fun x => x.1 == n) with
  | some x => x.2
  | none => []

/-- Fuelled backtracking matcher in continuation-passing style.  It
anchors at the start of `s`, explores alternatives in Python's order
(greedy quantifiers longest-first, with backtracking through the
continuation `k`) and returns the first success. -/
def mmatch : Nat → Regex → List Char → Groups →
    (List Char → Groups → Option (List Char × Groups)) →
    Option (List Char × Groups)
  | 0, _, _, _, _ => none
  | _ + 1, Regex.eps, s, g, k => k s g
  | _ + 1, Regex.lit c, s, g, k =>
    match s with
    | [] => none
    | c2 :: rest => if c2 = c then k rest g else none
  | _ + 1, Regex.cls p, s, g, k =>
    match s with
    | [] => none
    | c2 :: rest => if p c2 then k rest g else none
  | fu + 1, Regex.seq a b, s, g, k =>
    mmatch fu a s g (fun s2 g2 => mmatch fu b s2 g2 k)
  | fu + 1, Regex.star r, s, g, k =>
    match mmatch fu r s g (fun s2 g2 =>
      if s2.length < s.length then mmatch fu (Regex.star r) s2 g2 k
      else none) with
    | some res => some res
    | none => k s g
  | fu + 1, Regex.grp i r, s, g, k =>
    mmatch fu r s g (fun s2 g2 => k s2 ((i, s.take (s.length - s2.length)) :: g2))

/-- One item of a substitution template: literal text or a group
back-reference. -/
inductive TItem where
  | str (s : String)
  | ref (n : Nat)

/-- A substitution template (the second argument of `re.sub`). -/
abbrev Template := List TItem

/-- Instantiate a template with the captured groups. -/
def applyTemplate (g : Groups) (t : Template) : List Char :=
  t.foldr (fun it acc =>
    (match it with
     | TItem.str s => s.data
     | TItem.ref n => lookupGrp g n) ++ acc) []

/-- The scanning loop of `re.sub`: at each position try to match; on a
match emit the instantiated template and resume after the consumed text,
otherwise copy one character and move on.  `mf` is the matcher fuel, the
outer `Nat` is the scan fuel (one unit per position). -/
def subNext (mf : Nat) (r : Regex) (t : Template) : Nat → List Char → List Char
  | 0, s => s
  | fu + 1, s =>
    match mmatch mf r s [] (fun rest g => some (rest, g)) with
    | some (rest, g) =>
      if rest.length < s.length then
        applyTemplate g t ++ subNext mf r t fu rest
      else
        match s with
        | [] => applyTemplate g t
        | c :: s2 => applyTemplate g t ++ c :: subNext mf r t fu s2
    | none =>
      match s with
      | [] => []
      | c :: s2 => c :: subNext mf r t fu s2

/-- Python's `re.sub(pattern, template, s)` for the patterns used here. -/
def pysub (r : Regex) (t : Template) (s : String) : String :=
  String.mk (subNext (300 + 4 * s.data.length) r t (s.data.length + 1) s.data)

/-- Apply an ordered list of substitution rules in sequence (the shape of
every rule table of the scripts). -/
def applyRules (rules : List (Regex × Template)) (s : String) : String :=
  rules.foldl (fun acc pr => pysub pr.1 pr.2 acc) s

/-- A purely literal substitution (`re.sub` with a pattern consisting of
escaped literal characters only). -/
def subLit (pat rep s : String) : String := pysub (rstr pat) [TItem.str rep] s

/-- A purely literal rule as a `(Regex, Template)` pair. -/
def litRule (pat rep : String) : Regex × Template := (rstr pat, [TItem.str rep])

/-- The ordered rule table `replacements` of `simple_fix.py` (`fix_file`,
lines 17-70), one entry per `(pattern, replacement)` pair, in source
order.  Each entry is annotated with the original Python regex. -/
def simple_replacements : List (Regex × Template) := [
  -- r' =, '  ->  r' => '
  litRule " =, " " => ",
  -- r'\(([^)]*) > ([^)]*)\)'  ->  r'(\1, \2)'
  (rcat [Regex.lit '(', Regex.grp 1 (Regex.star (rnot [')'])), rstr " > ",
         Regex.grp 2 (Regex.star (rnot [')'])), Regex.lit ')'],
   [TItem.str "(", TItem.ref 1, TItem.str ", ", TItem.ref 2, TItem.str ")"]),
  -- r': ([^>]*) > ([a-zA-Z_][a-zA-Z0-9_]*:)'  ->  r': \1, \2'
  (rcat [rstr ": ", Regex.grp 1 (Regex.star (rnot ['>'])), rstr " > ",
         Regex.grp 2 (rcat [Regex.cls alphaU, Regex.star (Regex.cls wordC), Regex.lit ':'])],
   [TItem.str ": ", TItem.ref 1, TItem.str ", ", TItem.ref 2]),
  -- r"' > "  ->  r"', "
  (rcat [Regex.lit sqc, rstr " > "], [TItem.str (sqs ++ ", ")]),
  -- r'" > '  ->  r'", '
  litRule "\" > " "\", ",
  -- r' > }'  ->  r', }'
  litRule " > \x7d" ", \x7d",
  -- r' > ]'  ->  r', ]'
  litRule " > ]" ", ]",
  -- r' > \)'  ->  r', )'
  litRule " > )" ", )",
  -- r"on\('([^']*)' > "  ->  r"on('\1', "
  (rcat [rstr "on(", Regex.lit sqc, Regex.grp 1 (Regex.star (rnot [sqc])),
         Regex.lit sqc, rstr " > "],
   [TItem.str ("on(" ++ sqs), TItem.ref 1, TItem.str (sqs ++ ", ")]),
  -- r"handle\('([^']*)' > "  ->  r"handle('\1', "
  (rcat [rstr "handle(", Regex.lit sqc, Regex.grp 1 (Regex.star (rnot [sqc])),
         Regex.lit sqc, rstr " > "],
   [TItem.str ("handle(" ++ sqs), TItem.ref 1, TItem.str (sqs ++ ", ")]),
  -- r'string > '  ->  r'string, '
  litRule "string > " "string, ",
  -- r'number > '  ->  r'number, '
  litRule "number > " "number, ",
  -- r'boolean > '  ->  r'boolean, '
  litRule "boolean > " "boolean, ",
  -- r'unknown > '  ->  r'unknown, '
  litRule "unknown > " "unknown, ",
  -- r', = '  ->  r' >= '
  litRule ", = " " >= ",
  -- r'\[\] >'  ->  r'[0] >'
  litRule "[] >" "[0] >",
  -- r'\[\]\)'  ->  r'[0])'
  litRule "[])" "[0])",
  -- r'\[\];'  ->  r'[0];'
  litRule "[];" "[0];",
  -- r'\[\] \|\| '  ->  r'[0] || '
  litRule "[] || " "[0] || ",
  -- r'\[\]\.value'  ->  r'[0].value'
  litRule "[].value" "[0].value",
  -- r'Record<string > unknown>'  ->  r'Record<string, unknown>'
  litRule "Record<string > unknown>" "Record<string, unknown>",
  -- r': \(\): void =>'  ->  r': () => '
  litRule ": (): void =>" ": () => ",
  -- r'get:, \(\): void =>'  ->  r'get: () => '
  litRule "get:, (): void =>" "get: () => ",
  -- r'set: newData => \{;'  ->  r'set: newData => {'
  litRule "set: newData => \x7b;" "set: newData => \x7b",
  -- r'} > timeout'  ->  r'}, timeout'
  litRule "\x7d > timeout" "\x7d, timeout",
  -- r'Platform\[0\]'  ->  r'Platform[]'
  litRule "Platform[0]" "Platform[]",
  -- r'Song\[0\]'  ->  r'Song[]'
  litRule "Song[0]" "Song[]",
  -- r'string\[0\]'  ->  r'string[]'
  litRule "string[0]" "string[]",
  -- r': number =, '  ->  r': number = '
  litRule ": number =, " ": number = ",
  -- r': string =, '  ->  r': string = '
  litRule ": string =, " ": string = ",
  -- r': boolean =, '  ->  r': boolean = '
  litRule ": boolean =, " ": boolean = ",
  -- r'watch\( \(\) => '  ->  r'watch(() => '
  litRule "watch( () => " "watch(() => ",
  -- r'\{ data:, '  ->  r'{ data: '
  litRule "\x7b data:, " "\x7b data: ",
  -- r'>=, '  ->  r'>= '
  litRule ">=, " ">= ",
  -- r'<=, '  ->  r'<= '
  litRule "<=, " "<= ",
  -- r'>, '  ->  r'> '
  litRule ">, " "> ",
  -- r'<, '  ->  r'< '
  litRule "<, " "< ",
  -- r'\+, '  ->  r'+ '
  litRule "+, " "+ ",
  -- r'-, '  ->  r'- '
  litRule "-, " "- ",
  -- r'\*, '  ->  r'* '
  litRule "*, " "* ",
  -- r'/, '  ->  r'/ '
  litRule "/, " "/ "]

/-- The full text transformation of `simple_fix.py`'s `fix_file` (its
`for pattern, replacement in replacements: content = re.sub(...)` loop). -/
def simple_fix_content (content : String) : String :=
  applyRules simple_replacements content

/-- The ordered rules of `fix_typescript_syntax` in `smart_fix.py`
(lines 8-60), one entry per `re.sub` statement, in source order. -/
def smart_ts_rules : List (Regex × Template) := [
  -- r'\(([^)]*):,\s*([^)]*)\)'  ->  r'(\1: \2)'
  (rcat [Regex.lit '(', Regex.grp 1 (Regex.star (rnot [')'])), rstr ":,", rws,
         Regex.grp 2 (Regex.star (rnot [')'])), Regex.lit ')'],
   [TItem.str "(", TItem.ref 1, TItem.str ": ", TItem.ref 2, TItem.str ")"]),
  -- r'(\w+):,\s*(\w+)'  ->  r'\1: \2'
  (rcat [Regex.grp 1 rwp, rstr ":,", rws, Regex.grp 2 rwp],
   [TItem.ref 1, TItem.str ": ", TItem.ref 2]),
  -- r'=>>'  ->  r'=>'
  litRule "=>>" "=>",
  -- r'=>'  ->  r'=>'   (an identity substitution in the source)
  litRule "=>" "=>",
  -- r'watch\(\s*\(\)\s*=>\s*([^)]+)\(\)'  ->  r'watch(() => \1, '
  (rcat [rstr "watch(", rws, rstr "()", rws, rstr "=>", rws,
         Regex.grp 1 (rplus (rnot [')'])), rstr "()"],
   [TItem.str "watch(() => ", TItem.ref 1, TItem.str ", "]),
  -- r'watch\(\s*([^)]+)\(\)\s*=>'  ->  r'watch(\1, '
  (rcat [rstr "watch(", rws, Regex.grp 1 (rplus (rnot [')'])), rstr "()", rws, rstr "=>"],
   [TItem.str "watch(", TItem.ref 1, TItem.str ", "]),
  -- r'{\s*,'  ->  r'{'
  (rcat [Regex.lit '\x7b', rws, Regex.lit ','], [TItem.str "\x7b"]),
  -- r':\s*\(\):\s*void\s*=>'  ->  r': () =>'
  (rcat [Regex.lit ':', rws, rstr "():", rws, rstr "void", rws, rstr "=>"],
   [TItem.str ": () =>"]),
  -- r'(\w+)\[0\]'  ->  r'\1[]'
  (rcat [Regex.grp 1 rwp, rstr "[0]"], [TItem.ref 1, TItem.str "[]"]),
  -- r'>=>'  ->  r'>='
  litRule ">=>" ">=",
  -- r'<=>'  ->  r'<='
  litRule "<=>" "<=",
  -- r'i\s*\+=>'  ->  r'i +='
  (rcat [Regex.lit 'i', rws, rstr "+=>"], [TItem.str "i +="]),
  -- r'\(\s*([^,)]+),\s*([^)]+)\s*\)'  ->  r'(\1, \2)'
  (rcat [Regex.lit '(', rws, Regex.grp 1 (rplus (rnot [',', ')'])), Regex.lit ',', rws,
         Regex.grp 2 (rplus (rnot [')'])), rws, Regex.lit ')'],
   [TItem.str "(", TItem.ref 1, TItem.str ", ", TItem.ref 2, TItem.str ")"]),
  -- r'catch\s*\(\s*(\w+):,\s*(\w+)\s*\)'  ->  r'catch (\1: \2)'
  (rcat [rstr "catch", rws, Regex.lit '(', rws, Regex.grp 1 rwp, rstr ":,", rws,
         Regex.grp 2 rwp, rws, Regex.lit ')'],
   [TItem.str "catch (", TItem.ref 1, TItem.str ": ", TItem.ref 2, TItem.str ")"]),
  -- r'inject<\([^)]*\|,\s*([^)]*)\)'  ->  r'inject<(\1)'
  (rcat [rstr "inject<(", Regex.star (rnot [')']), rstr "|,", rws,
         Regex.grp 1 (Regex.star (rnot [')'])), Regex.lit ')'],
   [TItem.str "inject<(", TItem.ref 1, TItem.str ")"]),
  -- r'\?\s*([^:]+)\s*:,\s*([^)]+)\)'  ->  r'? \1 : \2)'
  (rcat [Regex.lit '?', rws, Regex.grp 1 (rplus (rnot [':'])), rws, rstr ":,", rws,
         Regex.grp 2 (rplus (rnot [')'])), Regex.lit ')'],
   [TItem.str "? ", TItem.ref 1, TItem.str " : ", TItem.ref 2, TItem.str ")"]),
  -- r'const\s*{\s*([^:]+):,\s*([^}]+)\s*}'  ->  r'const { \1: \2 }'
  (rcat [rstr "const", rws, Regex.lit '\x7b', rws, Regex.grp 1 (rplus (rnot [':'])),
         rstr ":,", rws, Regex.grp 2 (rplus (rnot ['\x7d'])), rws, Regex.lit '\x7d'],
   [TItem.str "const \x7b ", TItem.ref 1, TItem.str ": ", TItem.ref 2, TItem.str " \x7d"]),
  -- r'=\s*\[0\];'  ->  r'= [];'
  (rcat [Regex.lit '=', rws, rstr "[0];"], [TItem.str "= [];"]),
  -- r'\):\s*(\w+)\s*=>'  ->  r'): \1 =>'
  (rcat [rstr "):", rws, Regex.grp 1 rwp, rws, rstr "=>"],
   [TItem.str "): ", TItem.ref 1, TItem.str " =>"])]

/-- `smart_fix.py`'s `fix_typescript_syntax` (lines 8-60). -/
def fix_typescript_syntax (content : String) : String :=
  applyRules smart_ts_rules content

/-- The ordered rules of `fix_vue_syntax` in `smart_fix.py` (lines 62-74). -/
def smart_vue_rules : List (Regex × Template) := [
  -- r'watch\(\s*\(\)\s*=>\s*([^(]+)\(([^)]*)\)\s*=>'  ->  r'watch(() => \1, (\2) =>'
  (rcat [rstr "watch(", rws, rstr "()", rws, rstr "=>", rws,
         Regex.grp 1 (rplus (rnot ['('])), Regex.lit '(',
         Regex.grp 2 (Regex.star (rnot [')'])), Regex.lit ')', rws, rstr "=>"],
   [TItem.str "watch(() => ", TItem.ref 1, TItem.str ", (", TItem.ref 2, TItem.str ") =>"]),
  -- r'\(e:,\s*([^)]+)\):\s*void;'  ->  r'(e: \1): void;'
  (rcat [rstr "(e:,", rws, Regex.grp 1 (rplus (rnot [')'])), rstr "):", rws, rstr "void;"],
   [TItem.str "(e: ", TItem.ref 1, TItem.str "): void;"]),
  -- r'computed\(\(\)\s*=>\s*\(([^)]*)\s*\?\s*([^:]*)\s*:,\s*([^)]*)\)'
  --   ->  r'computed(() => (\1 ? \2 : \3)'
  (rcat [rstr "computed(()", rws, rstr "=>", rws, Regex.lit '(',
         Regex.grp 1 (Regex.star (rnot [')'])), rws, Regex.lit '?', rws,
         Regex.grp 2 (Regex.star (rnot [':'])), rws, rstr ":,", rws,
         Regex.grp 3 (Regex.star (rnot [')'])), Regex.lit ')'],
   [TItem.str "computed(() => (", TItem.ref 1, TItem.str " ? ", TItem.ref 2,
    TItem.str " : ", TItem.ref 3, TItem.str ")"])]

/-- `smart_fix.py`'s `fix_vue_syntax` (lines 62-74). -/
def fix_vue_syntax (content : String) : String :=
  applyRules smart_vue_rules content

/-- Python's `str.endswith`, as a suffix test on the character list. -/
def endsWithStr (path suffix : String) : Bool :=
  List.isSuffixOf suffix.data path.data

/-- The content transformation performed by `smart_fix.py`'s `fix_file`
on a file at `path`: `fix_typescript_syntax`, then `fix_vue_syntax` when
the path ends with `.vue`. -/
def smart_transform (path content : String) : String :=
  let c := fix_typescript_syntax content
  if endsWithStr path ".vue" then fix_vue_syntax c else c

/-- The ordered rules of `fix_specific_typescript_errors` in
`final_precise_fix.py` (lines 8-39). -/
def precise_rules : List (Regex × Template) := [
  -- r'\(([^)]*):,\s*([^)]*)\)'  ->  r'(\1: \2)'
  (rcat [Regex.lit '(', Regex.grp 1 (Regex.star (rnot [')'])), rstr ":,", rws,
         Regex.grp 2 (Regex.star (rnot [')'])), Regex.lit ')'],
   [TItem.str "(", TItem.ref 1, TItem.str ": ", TItem.ref 2, TItem.str ")"]),
  -- r'(\w+):,\s*(\w+)'  ->  r'\1: \2'
  (rcat [Regex.grp 1 rwp, rstr ":,", rws, Regex.grp 2 rwp],
   [TItem.ref 1, TItem.str ": ", TItem.ref 2]),
  -- r'watch\(\(\)\s*=>\s*([^,]+),\s*=>\s*\{'  ->  r'watch(() => \1, () => {'
  (rcat [rstr "watch(()", rws, rstr "=>", rws, Regex.grp 1 (rplus (rnot [','])),
         Regex.lit ',', rws, rstr "=>", rws, Regex.lit '\x7b'],
   [TItem.str "watch(() => ", TItem.ref 1, TItem.str ", () => \x7b"]),
  -- r'{\s*,'  ->  r'{'
  (rcat [Regex.lit '\x7b', rws, Regex.lit ','], [TItem.str "\x7b"]),
  -- r',\s*}'  ->  r'}'
  (rcat [Regex.lit ',', rws, Regex.lit '\x7d'], [TItem.str "\x7d"]),
  -- r'(\w+)\[\]\s*;'  ->  r'\1[0];'
  (rcat [Regex.grp 1 rwp, rstr "[]", rws, Regex.lit ';'], [TItem.ref 1, TItem.str "[0];"]),
  -- r'(\w+)\[\]\.'  ->  r'\1[0].'
  (rcat [Regex.grp 1 rwp, rstr "[]."], [TItem.ref 1, TItem.str "[0]."]),
  -- r'length,\s*0\)'  ->  r'length > 0)'
  (rcat [rstr "length,", rws, rstr "0)"], [TItem.str "length > 0)"]),
  -- r'\$\{(\w+)\[\]\.(\w+)\}'  ->  r'${\1[0].\2}'
  (rcat [rstr "$\x7b", Regex.grp 1 rwp, rstr "[].", Regex.grp 2 rwp, Regex.lit '\x7d'],
   [TItem.str "$\x7b", TItem.ref 1, TItem.str "[0].", TItem.ref 2, TItem.str "\x7d"]),
  -- r'\):\s*(\w+)\s*=>'  ->  r'): \1 =>'
  (rcat [rstr "):", rws, Regex.grp 1 rwp, rws, rstr "=>"],
   [TItem.str "): ", TItem.ref 1, TItem.str " =>"])]

/-- `final_precise_fix.py`'s `fix_specific_typescript_errors`. -/
def fix_specific_typescript_errors (content : String) : String :=
  applyRules precise_rules content

/-- The content transformation of `simple_fix.py`, as a function of path
and content (the path is unused by that script's rules). -/
def simple_transform (path content : String) : String :=
  simple_fix_content content

/-- The content transformation of `final_precise_fix.py`'s `fix_file`
(path-independent). -/
def precise_transform (path content : String) : String :=
  fix_specific_typescript_errors content

/-- State of one path on disk: missing, present but failing on
`open(p, 'r')`, present and readable but failing on `open(p, 'w')`
(write-protected — the write-exception case of the scripts' `except`
handlers), or fully readable and writable with the given text. -/
inductive FileState where
  | absent
  | unreadable
  | readOnly (content : String)
  | readable (content : String)
deriving DecidableEq

/-- The file system: a map from path to file state. -/
abbrev FS := String → FileState

/-- Point update of the file system (the effect of `open(p, 'w')` plus
`write`). -/
def updateFS (fs : FS) (p : String) (v : FileState) : FS :=
  fun q => if q = p then v else fs q

/-- Result of one `fix_file` call: the file system afterwards, the
boolean return value, whether a write was performed, and the error
report lines printed by the `except` handler. -/
structure FixResult where
  fs : FS
  ret : Bool
  wrote : Bool
  msgs : List String

/-- The shared shape of `fix_file` in `simple_fix.py` (lines 8-88),
`smart_fix.py` (lines 76-102) and `final_precise_fix.py` (lines 41-63):
read the file, apply the script's transformation `tr`, and write back
only when the content changed.  Any exception — the read failing, or
the write failing on a changed write-protected file — is caught by the
surrounding `try/except`, reported for this file and turned into
`False`, leaving the file untouched.  A write-protected file whose
content is unchanged raises nothing, since no write is attempted.
Progress prints other than the error report are omitted. -/
def fixFileG (tr : String → String → String) (fs : FS) (p : String) : FixResult :=
  match fs p with
  | FileState.readable c =>
    let c2 := tr p c
    if c2 = c then ⟨fs, false, false, []⟩
    else ⟨updateFS fs p (FileState.readable c2), true, true, ["修复完成: " ++ p]⟩
  | FileState.readOnly c =>
    let c2 := tr p c
    if c2 = c then ⟨fs, false, false, []⟩
    else ⟨fs, false, false, ["修复失败: " ++ p]⟩
  | _ => ⟨fs, false, false, ["修复失败: " ++ p]⟩

/-- The `for file_path in files_to_fix: if fix_file(file_path):
fixed_count += 1` loop of `simple_fix.py` / `smart_fix.py` `main`.
Returns the final file system, the modified-file count and the emitted
report lines. -/
def runFix (tr : String → String → String) (fs : FS) :
    List String → FS × Nat × List String
  | [] => (fs, 0, [])
  | p :: rest =>
    let r := fixFileG tr fs p
    let rec2 := runFix tr r.fs rest
    (rec2.1, (if r.ret then 1 else 0) + rec2.2.1, r.msgs ++ rec2.2.2)

/-- The whole-run behaviour of `simple_fix.py` on a list of candidate
files. -/
def simple_fix_run (fs : FS) (files : List String) : FS × Nat × List String :=
  runFix simple_transform fs files

/-- The whole-run behaviour of `smart_fix.py` on a list of candidate
files. -/
def smart_fix_run (fs : FS) (files : List String) : FS × Nat × List String :=
  runFix smart_transform fs files

/-- The `main` loop of `final_precise_fix.py` (lines 76-82): for each
configured path, check existence first; a missing path is reported as
`文件不存在` and skipped, an existing one is handed to `fix_file`. -/
def precise_loop (fs : FS) : List String → FS × Nat × List String
  | [] => (fs, 0, [])
  | p :: rest =>
    match fs p with
    | FileState.absent =>
      let rec2 := precise_loop fs rest
      (rec2.1, rec2.2.1, ("文件不存在: " ++ p) :: rec2.2.2)
    | _ =>
      let r := fixFileG precise_transform fs p
      let rec2 := precise_loop r.fs rest
      (rec2.1, (if r.ret then 1 else 0) + rec2.2.1, r.msgs ++ rec2.2.2)

/-- The explicit path list `problem_files` of `final_precise_fix.py`. -/
def problem_files : List String :=
  ["src/main/lyric.ts", "src/main/modules/fileManager.ts", "src/main/modules/loginWindow.ts"]

/-- `final_precise_fix.py`'s `main` (without the trailing verifier call). -/
def final_precise_main (fs : FS) : FS × Nat × List String :=
  precise_loop fs problem_files

/-- The ordered literal substitutions applied by `final_fix.py` to
`src/main/modules/cache.ts` (lines 17-20). -/
def cache_ts_fix (c : String) : String :=
  subLit "const toDelete: string[] = [0];" "const toDelete: string[] = [];"
    (subLit "if (cleanedCount, " "if (cleanedCount > "
      (subLit "if (cleanedSize, " "if (cleanedSize >= " c))

/-- The ordered literal substitutions applied by `final_fix.py` to
`src/main/modules/fileManager.ts` (lines 33-39). -/
def fileManager_ts_fix (c : String) : String :=
  subLit "as Record<string, unknown>[0]" "as Record<string, unknown>[]"
    (subLit "downloadStore.get('history', [0])" "downloadStore.get('history', [])"
      (subLit "as \x7b name: string \x7d[0]" "as \x7b name: string \x7d[]"
        (subLit "const mergedLines: string[] = [0];" "const mergedLines: string[] = [];"
          (subLit "\x7d[] = [0];" "\x7d[] = [];" c))))

/-- The ordered literal substitutions applied by `final_fix.py` to
`src/main/modules/tray.ts` (lines 52-53). -/
def tray_ts_fix (c : String) : String :=
  subLit ": [0]) as MenuItemConstructorOptions" ": []) as MenuItemConstructorOptions[]"
    (subLit "as MenuItemConstructorOptions[0]" "as MenuItemConstructorOptions[]" c)

/-- The ordered literal substitutions applied by `final_fix.py` to
`src/main/modules/window-size.ts` (lines 66-67). -/
def window_size_ts_fix (c : String) : String :=
  subLit "\x7d else if (scaleFactor, " "\x7d else if (scaleFactor > "
    (subLit "if (scaleFactor, " "if (scaleFactor > " c)

/-- The substitution applied by `final_fix.py` to
`src/main/unblockMusic.ts` (line 80). -/
def unblock_fix (c : String) : String :=
  subLit "as unknown[0]" "as unknown[]" c

/-- The substitution applied by `final_fix.py` to `src/preload/index.ts`
(line 93). -/
def preload_fix (c : String) : String :=
  subLit "unknown[0]" "unknown[]" c

/-- The ordered literal substitutions applied by `final_fix.py` to
`src/renderer/types/api-responses.ts` (lines 106-110). -/
def api_responses_fix (c : String) : String :=
  subLit "unknown[0]" "unknown[]"
    (subLit "SongUrl[0]" "SongUrl[]"
      (subLit "Playlist[0]" "Playlist[]"
        (subLit "Album[0]" "Album[]"
          (subLit "Artist[0]" "Artist[]" c))))

/-- Accumulated state of a `final_fix.py` run: the file system, the
paths written so far, the printed report lines, and the uncaught
exception (if one was raised, aborting the rest of the run). -/
structure FinalState where
  fs : FS
  writes : List String
  msgs : List String
  err : Option String

/-- One per-file block of `final_fix.py`'s `fix_specific_errors`:
`if os.path.exists(p)` guards the block (a missing path is skipped with
no message); then the file is read, transformed by `tr`, and written
back unconditionally.  No exception is caught anywhere in
`final_fix.py`, so a file that fails on read, or a write-protected file
(whose unconditional write raises), aborts the whole run. -/
def final_block (p : String) (tr : String → String) (st : FinalState) : FinalState :=
  match st.err with
  | some _ => st
  | none =>
    match st.fs p with
    | FileState.absent => st
    | FileState.unreadable => { st with err := some p }
    | FileState.readOnly c => { st with err := some p }
    | FileState.readable c =>
      { fs := updateFS st.fs p (FileState.readable (tr c)),
        writes := st.writes ++ [p],
        msgs := st.msgs ++ [("修复完成: " ++ p)],
        err := none }

/-- `final_fix.py`'s `fix_specific_errors` (the seven per-file blocks in
source order). -/
def fix_specific_errors (fs : FS) : FinalState :=
  final_block "src/renderer/types/api-responses.ts" api_responses_fix
    (final_block "src/preload/index.ts" preload_fix
      (final_block "src/main/unblockMusic.ts" unblock_fix
        (final_block "src/main/modules/window-size.ts" window_size_ts_fix
          (final_block "src/main/modules/tray.ts" tray_ts_fix
            (final_block "src/main/modules/fileManager.ts" fileManager_ts_fix
              (final_block "src/main/modules/cache.ts" cache_ts_fix
                ⟨fs, [], [], none⟩))))))

/-- The target-resolution step of `simple_fix.py` / `smart_fix.py`
`main`: extend an initially empty list with the matches of each glob
pattern, then deduplicate with `list(set(...))` (modelled by `dedup`;
only multiplicity and membership of the result are relied upon). -/
def resolve_targets (groups : List (List String)) : List String :=
  (groups.foldl (fun acc g => acc ++ g) []).dedup

end MusicFix

namespace MusicFix

/-- Example file system: a readable file `a.ts` whose content `x` no
variant changes, an unreadable file `b.ts`, a write-protected file
`d.ts` whose content every variant's rules would change, a readable
file `e.ts` whose content `arr[0]` is preserved by `simple_fix` but
changed by `smart_fix`, a readable file `f.ts` whose content `a[];`
`simple_fix` changes, and everything else missing. -/
def fsW1 : FS := fun q =>
  if q = "a.ts" then FileState.readable "x"
  else if q = "b.ts" then FileState.unreadable
  else if q = "d.ts" then FileState.readOnly "(a:, b) [];"
  else if q = "e.ts" then FileState.readable "arr[0]"
  else if q = "f.ts" then FileState.readable "a[];"
  else FileState.absent

/-- Example file system for `final_fix.py`: its first target
`src/main/modules/cache.ts` exists with content the rules do not change,
everything else is missing. -/
def fsC3 : FS := fun q =>
  if q = "src/main/modules/cache.ts" then FileState.readable "hello"
  else FileState.absent

/-- Example file system for `final_fix.py`: its first target is
unreadable while `src/main/modules/fileManager.ts` exists with content
its rules would change. -/
def fsC4 : FS := fun q =>
  if q = "src/main/modules/cache.ts" then FileState.unreadable
  else if q = "src/main/modules/fileManager.ts" then FileState.readable "x\x7d[] = [0];"
  else FileState.absent

/-- File system with every path missing. -/
def fsAbsent : FS := fun _ => FileState.absent

/-- Example file system for `final_precise_fix.py`: the first and third
configured paths exist, the second is missing. -/
def fsC6 : FS := fun q =>
  if q = "src/main/lyric.ts" then FileState.readable "x"
  else if q = "src/main/modules/loginWindow.ts" then FileState.readable "x"
  else FileState.absent

theorem fixFileG_other (tr : String → String → String) (fs : FS) (p q : String)
    (h : q ≠ p) : (fixFileG tr fs p).fs q = fs q := by
  cases hfs : fs p with
  | readable c =>
    by_cases hc : tr p c = c <;> simp [fixFileG, hfs, hc, updateFS, h]
  | readOnly c =>
    by_cases hc : tr p c = c <;> simp [fixFileG, hfs, hc]
  | absent => simp [fixFileG, hfs]
  | unreadable => simp [fixFileG, hfs]

theorem fixFileG_self (tr : String → String → String) (fs : FS) (p c : String)
    (h : fs p = FileState.readable c) :
    (fixFileG tr fs p).fs p = FileState.readable (tr p c) := by
  by_cases hc : tr p c = c <;> simp [fixFileG, h, hc, updateFS]

theorem fixFileG_self_all (tr : String → String → String) (fs : FS) (p : String) :
    (fixFileG tr fs p).fs p =
      (match fs p with
       | FileState.readable c => FileState.readable (tr p c)
       | s => s) := by
  cases hfs : fs p with
  | readable c => rw [fixFileG_self tr fs p c hfs]
  | readOnly c => by_cases hc : tr p c = c <;> simp [fixFileG, hfs, hc]
  | absent => simp [fixFileG, hfs]
  | unreadable => simp [fixFileG, hfs]

theorem fixFileG_unreadable (tr : String → String → String) (fs : FS) (p : String)
    (h : fs p = FileState.unreadable) :
    fixFileG tr fs p = ⟨fs, false, false, [("修复失败: " ++ p)]⟩ := by
  simp [fixFileG, h]

theorem fixFileG_absent (tr : String → String → String) (fs : FS) (p : String)
    (h : fs p = FileState.absent) :
    fixFileG tr fs p = ⟨fs, false, false, [("修复失败: " ++ p)]⟩ := by
  simp [fixFileG, h]

theorem fixFileG_unchanged (tr : String → String → String) (fs : FS) (p c q : String)
    (h : fs p = FileState.readable c ∨ fs p = FileState.readOnly c) (he : tr p c = c) :
    (fixFileG tr fs p).wrote = false ∧ (fixFileG tr fs p).ret = false ∧
      (fixFileG tr fs p).fs q = fs q := by
  cases h with
  | inl h => simp [fixFileG, h, he]
  | inr h => simp [fixFileG, h, he]

theorem fixFileG_ret_iff (tr : String → String → String) (fs : FS) (p c : String)
    (h : fs p = FileState.readable c) :
    ((fixFileG tr fs p).ret = true ↔ tr p c ≠ c) := by
  by_cases hc : tr p c = c <;> simp [fixFileG, h, hc]

theorem fixFileG_ret_eq_wrote (tr : String → String → String) (fs : FS) (p : String) :
    (fixFileG tr fs p).ret = (fixFileG tr fs p).wrote := by
  cases hfs : fs p with
  | readable c => by_cases hc : tr p c = c <;> simp [fixFileG, hfs, hc]
  | readOnly c => by_cases hc : tr p c = c <;> simp [fixFileG, hfs, hc]
  | absent => simp [fixFileG, hfs]
  | unreadable => simp [fixFileG, hfs]

theorem fixFileG_pres_unreadable (tr : String → String → String) (fs : FS) (p q : String)
    (h : fs p = FileState.unreadable) : (fixFileG tr fs q).fs p = FileState.unreadable := by
  by_cases hq : p = q
  · subst hq
    rw [fixFileG_unreadable tr fs p h]
    exact h
  · rw [fixFileG_other tr fs q p hq]
    exact h

theorem fixFileG_pres_absent (tr : String → String → String) (fs : FS) (p q : String)
    (h : fs p = FileState.absent) : (fixFileG tr fs q).fs p = FileState.absent := by
  by_cases hq : p = q
  · subst hq
    rw [fixFileG_absent tr fs p h]
    exact h
  · rw [fixFileG_other tr fs q p hq]
    exact h

theorem fixFileG_readOnly (tr : String → String → String) (fs : FS) (p c : String)
    (h : fs p = FileState.readOnly c) :
    (fixFileG tr fs p).ret = false ∧ (fixFileG tr fs p).wrote = false ∧
      (fixFileG tr fs p).fs = fs := by
  by_cases hc : tr p c = c <;> simp [fixFileG, h, hc]

theorem fixFileG_failed (tr : String → String → String) (fs : FS) (p : String)
    (h : fs p = FileState.unreadable ∨
      ∃ c, fs p = FileState.readOnly c ∧ tr p c ≠ c) :
    fixFileG tr fs p = ⟨fs, false, false, [("修复失败: " ++ p)]⟩ := by
  cases h with
  | inl h => simp [fixFileG, h]
  | inr h =>
    obtain ⟨c, hc, hne⟩ := h
    simp [fixFileG, hc, hne]

theorem fixFileG_fs_at_failed (tr : String → String → String) (fs : FS) (p q : String)
    (h : fs p = FileState.unreadable ∨
      ∃ c, fs p = FileState.readOnly c ∧ tr p c ≠ c) :
    (fixFileG tr fs q).fs p = fs p := by
  by_cases hq : q = p
  · subst hq
    rw [fixFileG_failed tr fs q h]
  · exact fixFileG_other tr fs q p (fun hh => hq hh.symm)

theorem runFix_untouched (tr : String → String → String) (fs : FS) (files : List String)
    (p : String) (h : p ∉ files) : (runFix tr fs files).1 p = fs p := by
  induction files generalizing fs with
  | nil => rfl
  | cons a rest ih =>
    simp only [List.mem_cons, not_or] at h
    simp only [runFix]
    rw [ih _ h.2]
    exact fixFileG_other tr fs a p h.1

theorem runFix_char (tr : String → String → String) (fs : FS) (files : List String)
    (q : String) (hn : files.Nodup) :
    (runFix tr fs files).1 q =
      (if q ∈ files then
        (match fs q with
         | FileState.readable c => FileState.readable (tr q c)
         | s => s)
       else fs q) := by
  induction files generalizing fs with
  | nil => simp [runFix]
  | cons a rest ih =>
    obtain ⟨ha, hr⟩ := List.nodup_cons.mp hn
    simp only [runFix]
    by_cases hq : q = a
    · subst hq
      rw [runFix_untouched tr _ rest q ha, fixFileG_self_all tr fs q]
      simp
    · rw [ih _ hr, fixFileG_other tr fs a q hq]
      simp [List.mem_cons, hq]

theorem runFix_insert_unreadable (tr : String → String → String) (fs : FS)
    (l1 : List String) (p : String) (l2 : List String) (q : String)
    (h : fs p = FileState.unreadable) :
    ("修复失败: " ++ p) ∈ (runFix tr fs (l1 ++ p :: l2)).2.2 ∧
      (runFix tr fs (l1 ++ p :: l2)).1 q = (runFix tr fs (l1 ++ l2)).1 q ∧
      (runFix tr fs (l1 ++ p :: l2)).2.1 = (runFix tr fs (l1 ++ l2)).2.1 := by
  induction l1 generalizing fs with
  | nil =>
    simp only [List.nil_append, runFix, fixFileG_unreadable tr fs p h]
    simp
  | cons a l1 ih =>
    simp only [List.cons_append, runFix]
    obtain ⟨h1, h2, h3⟩ := ih ((fixFileG tr fs a).fs) (fixFileG_pres_unreadable tr fs p a h)
    exact ⟨List.mem_append_right _ h1, h2,
      congrArg (fun n => (if (fixFileG tr fs a).ret = true then 1 else 0) + n) h3⟩

theorem runFix_insert_failed (tr : String → String → String) (fs : FS)
    (l1 : List String) (p : String) (l2 : List String) (q : String)
    (h : fs p = FileState.unreadable ∨
      ∃ c, fs p = FileState.readOnly c ∧ tr p c ≠ c) :
    ("修复失败: " ++ p) ∈ (runFix tr fs (l1 ++ p :: l2)).2.2 ∧
      (runFix tr fs (l1 ++ p :: l2)).1 q = (runFix tr fs (l1 ++ l2)).1 q ∧
      (runFix tr fs (l1 ++ p :: l2)).2.1 = (runFix tr fs (l1 ++ l2)).2.1 := by
  induction l1 generalizing fs with
  | nil =>
    simp only [List.nil_append, runFix, fixFileG_failed tr fs p h]
    simp
  | cons a l1 ih =>
    simp only [List.cons_append, runFix]
    have hstep : (fixFileG tr fs a).fs p = fs p := fixFileG_fs_at_failed tr fs p a h
    obtain ⟨h1, h2, h3⟩ := ih ((fixFileG tr fs a).fs) (by rw [hstep]; exact h)
    exact ⟨List.mem_append_right _ h1, h2,
      congrArg (fun n => (if (fixFileG tr fs a).ret = true then 1 else 0) + n) h3⟩

theorem precise_loop_insert (fs : FS) (l1 : List String) (p : String) (l2 : List String)
    (q : String) (h : fs p = FileState.absent) :
    ("文件不存在: " ++ p) ∈ (precise_loop fs (l1 ++ p :: l2)).2.2 ∧
      (precise_loop fs (l1 ++ p :: l2)).1 q = (precise_loop fs (l1 ++ l2)).1 q ∧
      (precise_loop fs (l1 ++ p :: l2)).2.1 = (precise_loop fs (l1 ++ l2)).2.1 := by
  induction l1 generalizing fs with
  | nil =>
    simp only [List.nil_append, precise_loop, h]
    simp
  | cons a l1 ih =>
    simp only [List.cons_append, precise_loop]
    cases hfa : fs a with
    | absent =>
      obtain ⟨h1, h2, h3⟩ := ih fs h
      exact ⟨List.mem_cons_of_mem _ h1, h2, h3⟩
    | unreadable =>
      obtain ⟨h1, h2, h3⟩ :=
        ih ((fixFileG precise_transform fs a).fs) (fixFileG_pres_absent precise_transform fs p a h)
      exact ⟨List.mem_append_right _ h1, h2,
        congrArg (fun n => (if (fixFileG precise_transform fs a).ret = true then 1 else 0) + n) h3⟩
    | readOnly c =>
      obtain ⟨h1, h2, h3⟩ :=
        ih ((fixFileG precise_transform fs a).fs) (fixFileG_pres_absent precise_transform fs p a h)
      exact ⟨List.mem_append_right _ h1, h2,
        congrArg (fun n => (if (fixFileG precise_transform fs a).ret = true then 1 else 0) + n) h3⟩
    | readable c =>
      obtain ⟨h1, h2, h3⟩ :=
        ih ((fixFileG precise_transform fs a).fs) (fixFileG_pres_absent precise_transform fs p a h)
      exact ⟨List.mem_append_right _ h1, h2,
        congrArg (fun n => (if (fixFileG precise_transform fs a).ret = true then 1 else 0) + n) h3⟩

theorem precise_loop_insert_failed (fs : FS) (l1 : List String) (p : String)
    (l2 : List String) (q : String)
    (h : fs p = FileState.unreadable ∨
      ∃ c, fs p = FileState.readOnly c ∧ precise_transform p c ≠ c) :
    ("修复失败: " ++ p) ∈ (precise_loop fs (l1 ++ p :: l2)).2.2 ∧
      (precise_loop fs (l1 ++ p :: l2)).1 q = (precise_loop fs (l1 ++ l2)).1 q ∧
      (precise_loop fs (l1 ++ p :: l2)).2.1 = (precise_loop fs (l1 ++ l2)).2.1 := by
  induction l1 generalizing fs with
  | nil =>
    have hfix : fixFileG precise_transform fs p = ⟨fs, false, false, [("修复失败: " ++ p)]⟩ :=
      fixFileG_failed precise_transform fs p h
    cases h with
    | inl hu =>
      simp only [List.nil_append, precise_loop, hu, hfix]
      simp
    | inr hr =>
      obtain ⟨c, hc, hne⟩ := hr
      simp only [List.nil_append, precise_loop, hc, hfix]
      simp
  | cons a l1 ih =>
    simp only [List.cons_append, precise_loop]
    cases hfa : fs a with
    | absent =>
      obtain ⟨h1, h2, h3⟩ := ih fs h
      exact ⟨List.mem_cons_of_mem _ h1, h2, h3⟩
    | unreadable =>
      have hstep : (fixFileG precise_transform fs a).fs p = fs p :=
        fixFileG_fs_at_failed precise_transform fs p a h
      obtain ⟨h1, h2, h3⟩ := ih ((fixFileG precise_transform fs a).fs) (by rw [hstep]; exact h)
      exact ⟨List.mem_append_right _ h1, h2,
        congrArg (fun n => (if (fixFileG precise_transform fs a).ret = true then 1 else 0) + n) h3⟩
    | readOnly c =>
      have hstep : (fixFileG precise_transform fs a).fs p = fs p :=
        fixFileG_fs_at_failed precise_transform fs p a h
      obtain ⟨h1, h2, h3⟩ := ih ((fixFileG precise_transform fs a).fs) (by rw [hstep]; exact h)
      exact ⟨List.mem_append_right _ h1, h2,
        congrArg (fun n => (if (fixFileG precise_transform fs a).ret = true then 1 else 0) + n) h3⟩
    | readable c =>
      have hstep : (fixFileG precise_transform fs a).fs p = fs p :=
        fixFileG_fs_at_failed precise_transform fs p a h
      obtain ⟨h1, h2, h3⟩ := ih ((fixFileG precise_transform fs a).fs) (by rw [hstep]; exact h)
      exact ⟨List.mem_append_right _ h1, h2,
        congrArg (fun n => (if (fixFileG precise_transform fs a).ret = true then 1 else 0) + n) h3⟩

theorem foldl_append_eq_flatten (groups : List (List String)) (acc : List String) :
    groups.foldl (fun a g => a ++ g) acc = acc ++ groups.flatten := by
  induction groups generalizing acc with
  | nil => simp
  | cons g rest ih => simp [List.foldl_cons, ih, List.flatten_cons, List.append_assoc]

theorem mem_resolve_targets (groups : List (List String)) (p : String) :
    p ∈ resolve_targets groups ↔ ∃ g ∈ groups, p ∈ g := by
  unfold resolve_targets
  rw [List.mem_dedup, foldl_append_eq_flatten, List.nil_append, List.mem_flatten]

/-- C1 counterexample: the claim that applying a variant's full rule set
leaves every already-valid snippet unchanged fails on the valid
comparison `if (a > b)`, which `simple_fix.py` rewrites. -/
theorem C1_counterexample : simple_fix_content "if (a > b)" ≠ "if (a > b)" := by
  decide

/-- C1 (amended): non-overreach fails for the broad rule sets —
`simple_fix.py` rewrites the valid comparison `if (a > b)` to
`if (a, b)` and `smart_fix.py` rewrites the valid array index `arr[0]`
to `arr[]`; each snippet is, however, preserved by the other variants
(`smart_fix` leaves `if (a > b)` alone, `simple_fix` leaves `arr[0]`
alone, and `final_fix.py`'s literal cache.ts rules leave both alone). -/
theorem C1_overreach_amended :
    simple_fix_content "if (a > b)" = "if (a, b)" ∧
    fix_typescript_syntax "arr[0]" = "arr[]" ∧
    smart_transform "a.ts" "if (a > b)" = "if (a > b)" ∧
    simple_fix_content "arr[0]" = "arr[0]" ∧
    cache_ts_fix "if (a > b)" = "if (a > b)" ∧
    cache_ts_fix "arr[0]" = "arr[0]" := by
  decide

/-- C2: idempotence fails for `simple_fix.py`'s rule set.  Its rule
`\(([^)]*) > ([^)]*)\)` matches its own replacement output: on
`(a > b > c)` one application yields `(a > b, c)`, a second application
yields `(a, b, c)`, so `apply(R, apply(R, f)) ≠ apply(R, f)`. -/
theorem C2_simple_fix_not_idempotent :
    simple_fix_content "(a > b > c)" = "(a > b, c)" ∧
    simple_fix_content "(a > b, c)" = "(a, b, c)" ∧
    simple_fix_content (simple_fix_content "(a > b > c)") ≠
      simple_fix_content "(a > b > c)" := by
  decide

/-- C3 counterexample: `final_fix.py` writes its target file back
unconditionally — on a cache.ts whose content its rules leave unchanged
(`hello`), a write to the file is still performed. -/
theorem C3_counterexample :
    cache_ts_fix "hello" = "hello" ∧
    (fix_specific_errors fsC3).writes = ["src/main/modules/cache.ts"] ∧
    (fix_specific_errors fsC3).fs "src/main/modules/cache.ts" = FileState.readable "hello" := by
  decide

/-- C3 (amended): in each variant with a changed-guard (`simple_fix.py`,
`smart_fix.py`, `final_precise_fix.py`), whenever that variant's own
rules leave the buffer equal to the original, that variant performs no
write, reports the file as unmodified (`False`), and leaves the file
system untouched at every path — each variant's guarantee depends only
on its own rules, and it holds for writable as well as write-protected
files (no write is attempted, so none can fail).  `final_fix.py` alone
writes unconditionally (see the counterexample). -/
theorem C3_no_write_when_unchanged (fs : FS) (p c q : String)
    (h : fs p = FileState.readable c ∨ fs p = FileState.readOnly c) :
    (simple_fix_content c = c →
      (fixFileG simple_transform fs p).wrote = false ∧
      (fixFileG simple_transform fs p).ret = false ∧
      (fixFileG simple_transform fs p).fs q = fs q) ∧
    (smart_transform p c = c →
      (fixFileG smart_transform fs p).wrote = false ∧
      (fixFileG smart_transform fs p).ret = false ∧
      (fixFileG smart_transform fs p).fs q = fs q) ∧
    (fix_specific_typescript_errors c = c →
      (fixFileG precise_transform fs p).wrote = false ∧
      (fixFileG precise_transform fs p).ret = false ∧
      (fixFileG precise_transform fs p).fs q = fs q) :=
  ⟨fun he => fixFileG_unchanged simple_transform fs p c q h he,
   fun he => fixFileG_unchanged smart_transform fs p c q h he,
   fun he => fixFileG_unchanged precise_transform fs p c q h he⟩

/-- C3 witness: two concrete instances — `a.ts` with content `x`, which
every variant's rules fix, and `e.ts` with content `arr[0]`, which
`simple_fix`'s rules fix but `smart_fix`'s rules change, exercising the
per-variant guarantee independently of the other variants. -/
theorem C3_no_write_when_unchanged_witness :
    ((simple_fix_content "x" = "x" →
      (fixFileG simple_transform fsW1 "a.ts").wrote = false ∧
      (fixFileG simple_transform fsW1 "a.ts").ret = false ∧
      (fixFileG simple_transform fsW1 "a.ts").fs "b.ts" = fsW1 "b.ts") ∧
    (smart_transform "a.ts" "x" = "x" →
      (fixFileG smart_transform fsW1 "a.ts").wrote = false ∧
      (fixFileG smart_transform fsW1 "a.ts").ret = false ∧
      (fixFileG smart_transform fsW1 "a.ts").fs "b.ts" = fsW1 "b.ts") ∧
    (fix_specific_typescript_errors "x" = "x" →
      (fixFileG precise_transform fsW1 "a.ts").wrote = false ∧
      (fixFileG precise_transform fsW1 "a.ts").ret = false ∧
      (fixFileG precise_transform fsW1 "a.ts").fs "b.ts" = fsW1 "b.ts")) ∧
    ((simple_fix_content "arr[0]" = "arr[0]" →
      (fixFileG simple_transform fsW1 "e.ts").wrote = false ∧
      (fixFileG simple_transform fsW1 "e.ts").ret = false ∧
      (fixFileG simple_transform fsW1 "e.ts").fs "b.ts" = fsW1 "b.ts") ∧
    (smart_transform "e.ts" "arr[0]" = "arr[0]" →
      (fixFileG smart_transform fsW1 "e.ts").wrote = false ∧
      (fixFileG smart_transform fsW1 "e.ts").ret = false ∧
      (fixFileG smart_transform fsW1 "e.ts").fs "b.ts" = fsW1 "b.ts") ∧
    (fix_specific_typescript_errors "arr[0]" = "arr[0]" →
      (fixFileG precise_transform fsW1 "e.ts").wrote = false ∧
      (fixFileG precise_transform fsW1 "e.ts").ret = false ∧
      (fixFileG precise_transform fsW1 "e.ts").fs "b.ts" = fsW1 "b.ts")) :=
  ⟨C3_no_write_when_unchanged fsW1 "a.ts" "x" "b.ts" (by decide),
   C3_no_write_when_unchanged fsW1 "e.ts" "arr[0]" "b.ts" (by decide)⟩

/-- C4 counterexample: `final_fix.py` has no exception handler, so a
read failure on its first target (`cache.ts` unreadable) aborts the run
and the remaining candidate `fileManager.ts` is left unprocessed even
though its rules would have changed it. -/
theorem C4_counterexample :
    (fix_specific_errors fsC4).err = some "src/main/modules/cache.ts" ∧
    (fix_specific_errors fsC4).fs "src/main/modules/fileManager.ts" =
      FileState.readable "x\x7d[] = [0];" ∧
    fileManager_ts_fix "x\x7d[] = [0];" = "x\x7d[] = [];" := by
  decide

/-- C4 (amended): partial-failure isolation holds for every variant
whose `fix_file` wraps I/O in `try/except` (`simple_fix.py`,
`smart_fix.py`, `final_precise_fix.py`): a file whose read fails, and
likewise a write-protected file on which that variant's changed buffer
makes the write fail, is caught and reported for that file only, and
the rest of the candidate set is processed exactly as if the failing
file were not present (same final file system at every path and same
modified-file count); `final_fix.py` lacks the handler and a failure
there aborts the run (counterexample). -/
theorem C4_isolation (fs : FS) (l1 : List String) (p : String) (l2 : List String)
    (q c : String) :
    (fs p = FileState.unreadable →
      (("修复失败: " ++ p) ∈ (simple_fix_run fs (l1 ++ p :: l2)).2.2 ∧
       (simple_fix_run fs (l1 ++ p :: l2)).1 q = (simple_fix_run fs (l1 ++ l2)).1 q ∧
       (simple_fix_run fs (l1 ++ p :: l2)).2.1 = (simple_fix_run fs (l1 ++ l2)).2.1) ∧
      (("修复失败: " ++ p) ∈ (smart_fix_run fs (l1 ++ p :: l2)).2.2 ∧
       (smart_fix_run fs (l1 ++ p :: l2)).1 q = (smart_fix_run fs (l1 ++ l2)).1 q ∧
       (smart_fix_run fs (l1 ++ p :: l2)).2.1 = (smart_fix_run fs (l1 ++ l2)).2.1) ∧
      (("修复失败: " ++ p) ∈ (precise_loop fs (l1 ++ p :: l2)).2.2 ∧
       (precise_loop fs (l1 ++ p :: l2)).1 q = (precise_loop fs (l1 ++ l2)).1 q ∧
       (precise_loop fs (l1 ++ p :: l2)).2.1 = (precise_loop fs (l1 ++ l2)).2.1)) ∧
    (fs p = FileState.readOnly c →
      (simple_fix_content c ≠ c →
        ("修复失败: " ++ p) ∈ (simple_fix_run fs (l1 ++ p :: l2)).2.2 ∧
        (simple_fix_run fs (l1 ++ p :: l2)).1 q = (simple_fix_run fs (l1 ++ l2)).1 q ∧
        (simple_fix_run fs (l1 ++ p :: l2)).2.1 = (simple_fix_run fs (l1 ++ l2)).2.1) ∧
      (smart_transform p c ≠ c →
        ("修复失败: " ++ p) ∈ (smart_fix_run fs (l1 ++ p :: l2)).2.2 ∧
        (smart_fix_run fs (l1 ++ p :: l2)).1 q = (smart_fix_run fs (l1 ++ l2)).1 q ∧
        (smart_fix_run fs (l1 ++ p :: l2)).2.1 = (smart_fix_run fs (l1 ++ l2)).2.1) ∧
      (fix_specific_typescript_errors c ≠ c →
        ("修复失败: " ++ p) ∈ (precise_loop fs (l1 ++ p :: l2)).2.2 ∧
        (precise_loop fs (l1 ++ p :: l2)).1 q = (precise_loop fs (l1 ++ l2)).1 q ∧
        (precise_loop fs (l1 ++ p :: l2)).2.1 = (precise_loop fs (l1 ++ l2)).2.1)) := by
  constructor
  · intro h
    exact ⟨runFix_insert_failed simple_transform fs l1 p l2 q (Or.inl h),
           runFix_insert_failed smart_transform fs l1 p l2 q (Or.inl h),
           precise_loop_insert_failed fs l1 p l2 q (Or.inl h)⟩
  · intro h
    exact ⟨fun hne => runFix_insert_failed simple_transform fs l1 p l2 q (Or.inr ⟨c, h, hne⟩),
           fun hne => runFix_insert_failed smart_transform fs l1 p l2 q (Or.inr ⟨c, h, hne⟩),
           fun hne => precise_loop_insert_failed fs l1 p l2 q (Or.inr ⟨c, h, hne⟩)⟩

/-- C4 witness: two concrete instances over the candidate set
`[failing file, a.ts]` — first the unreadable file `b.ts` (read
failure), then the write-protected file `d.ts` whose content
`(a:, b) [];` every variant's rules would change (write failure). -/
theorem C4_isolation_witness :
    ((fsW1 "b.ts" = FileState.unreadable →
      (("修复失败: " ++ "b.ts") ∈ (simple_fix_run fsW1 ["b.ts", "a.ts"]).2.2 ∧
       (simple_fix_run fsW1 ["b.ts", "a.ts"]).1 "a.ts" = (simple_fix_run fsW1 ["a.ts"]).1 "a.ts" ∧
       (simple_fix_run fsW1 ["b.ts", "a.ts"]).2.1 = (simple_fix_run fsW1 ["a.ts"]).2.1) ∧
      (("修复失败: " ++ "b.ts") ∈ (smart_fix_run fsW1 ["b.ts", "a.ts"]).2.2 ∧
       (smart_fix_run fsW1 ["b.ts", "a.ts"]).1 "a.ts" = (smart_fix_run fsW1 ["a.ts"]).1 "a.ts" ∧
       (smart_fix_run fsW1 ["b.ts", "a.ts"]).2.1 = (smart_fix_run fsW1 ["a.ts"]).2.1) ∧
      (("修复失败: " ++ "b.ts") ∈ (precise_loop fsW1 ["b.ts", "a.ts"]).2.2 ∧
       (precise_loop fsW1 ["b.ts", "a.ts"]).1 "a.ts" = (precise_loop fsW1 ["a.ts"]).1 "a.ts" ∧
       (precise_loop fsW1 ["b.ts", "a.ts"]).2.1 = (precise_loop fsW1 ["a.ts"]).2.1)) ∧
     (fsW1 "b.ts" = FileState.readOnly "x" →
      (simple_fix_content "x" ≠ "x" →
        ("修复失败: " ++ "b.ts") ∈ (simple_fix_run fsW1 ["b.ts", "a.ts"]).2.2 ∧
        (simple_fix_run fsW1 ["b.ts", "a.ts"]).1 "a.ts" = (simple_fix_run fsW1 ["a.ts"]).1 "a.ts" ∧
        (simple_fix_run fsW1 ["b.ts", "a.ts"]).2.1 = (simple_fix_run fsW1 ["a.ts"]).2.1) ∧
      (smart_transform "b.ts" "x" ≠ "x" →
        ("修复失败: " ++ "b.ts") ∈ (smart_fix_run fsW1 ["b.ts", "a.ts"]).2.2 ∧
        (smart_fix_run fsW1 ["b.ts", "a.ts"]).1 "a.ts" = (smart_fix_run fsW1 ["a.ts"]).1 "a.ts" ∧
        (smart_fix_run fsW1 ["b.ts", "a.ts"]).2.1 = (smart_fix_run fsW1 ["a.ts"]).2.1) ∧
      (fix_specific_typescript_errors "x" ≠ "x" →
        ("修复失败: " ++ "b.ts") ∈ (precise_loop fsW1 ["b.ts", "a.ts"]).2.2 ∧
        (precise_loop fsW1 ["b.ts", "a.ts"]).1 "a.ts" = (precise_loop fsW1 ["a.ts"]).1 "a.ts" ∧
        (precise_loop fsW1 ["b.ts", "a.ts"]).2.1 = (precise_loop fsW1 ["a.ts"]).2.1))) ∧
    ((fsW1 "d.ts" = FileState.unreadable →
      (("修复失败: " ++ "d.ts") ∈ (simple_fix_run fsW1 ["d.ts", "a.ts"]).2.2 ∧
       (simple_fix_run fsW1 ["d.ts", "a.ts"]).1 "a.ts" = (simple_fix_run fsW1 ["a.ts"]).1 "a.ts" ∧
       (simple_fix_run fsW1 ["d.ts", "a.ts"]).2.1 = (simple_fix_run fsW1 ["a.ts"]).2.1) ∧
      (("修复失败: " ++ "d.ts") ∈ (smart_fix_run fsW1 ["d.ts", "a.ts"]).2.2 ∧
       (smart_fix_run fsW1 ["d.ts", "a.ts"]).1 "a.ts" = (smart_fix_run fsW1 ["a.ts"]).1 "a.ts" ∧
       (smart_fix_run fsW1 ["d.ts", "a.ts"]).2.1 = (smart_fix_run fsW1 ["a.ts"]).2.1) ∧
      (("修复失败: " ++ "d.ts") ∈ (precise_loop fsW1 ["d.ts", "a.ts"]).2.2 ∧
       (precise_loop fsW1 ["d.ts", "a.ts"]).1 "a.ts" = (precise_loop fsW1 ["a.ts"]).1 "a.ts" ∧
       (precise_loop fsW1 ["d.ts", "a.ts"]).2.1 = (precise_loop fsW1 ["a.ts"]).2.1)) ∧
     (fsW1 "d.ts" = FileState.readOnly "(a:, b) [];" →
      (simple_fix_content "(a:, b) [];" ≠ "(a:, b) [];" →
        ("修复失败: " ++ "d.ts") ∈ (simple_fix_run fsW1 ["d.ts", "a.ts"]).2.2 ∧
        (simple_fix_run fsW1 ["d.ts", "a.ts"]).1 "a.ts" = (simple_fix_run fsW1 ["a.ts"]).1 "a.ts" ∧
        (simple_fix_run fsW1 ["d.ts", "a.ts"]).2.1 = (simple_fix_run fsW1 ["a.ts"]).2.1) ∧
      (smart_transform "d.ts" "(a:, b) [];" ≠ "(a:, b) [];" →
        ("修复失败: " ++ "d.ts") ∈ (smart_fix_run fsW1 ["d.ts", "a.ts"]).2.2 ∧
        (smart_fix_run fsW1 ["d.ts", "a.ts"]).1 "a.ts" = (smart_fix_run fsW1 ["a.ts"]).1 "a.ts" ∧
        (smart_fix_run fsW1 ["d.ts", "a.ts"]).2.1 = (smart_fix_run fsW1 ["a.ts"]).2.1) ∧
      (fix_specific_typescript_errors "(a:, b) [];" ≠ "(a:, b) [];" →
        ("修复失败: " ++ "d.ts") ∈ (precise_loop fsW1 ["d.ts", "a.ts"]).2.2 ∧
        (precise_loop fsW1 ["d.ts", "a.ts"]).1 "a.ts" = (precise_loop fsW1 ["a.ts"]).1 "a.ts" ∧
        (precise_loop fsW1 ["d.ts", "a.ts"]).2.1 = (precise_loop fsW1 ["a.ts"]).2.1))) :=
  ⟨C4_isolation fsW1 [] "b.ts" ["a.ts"] "a.ts" "x",
   C4_isolation fsW1 [] "d.ts" ["a.ts"] "a.ts" "(a:, b) [];"⟩

/-- C5: the targeted corrections of `final_fix.py`'s cache.ts rules:
`if (cleanedSize, 10) ...` becomes `if (cleanedSize >= 10) ...` and
`const toDelete: string[] = [0];` becomes
`const toDelete: string[] = [];`. -/
theorem C5_targeted_correction :
    cache_ts_fix "if (cleanedSize, 10) \x7b" = "if (cleanedSize >= 10) \x7b" ∧
    cache_ts_fix "const toDelete: string[] = [0];" = "const toDelete: string[] = [];" := by
  decide

/-- C6 counterexample: in `final_fix.py` a missing configured path is
skipped silently — with every configured path absent the run emits no
message at all (no message names the missing path), although it does
complete without error. -/
theorem C6_counterexample :
    (fix_specific_errors fsAbsent).msgs = [] ∧ (fix_specific_errors fsAbsent).err = none := by
  decide

/-- C6 (amended): in `final_precise_fix.py`'s `main` a missing explicit
path is reported by a `文件不存在` message naming it and skipped, and the
run continues exactly as without that path (same final file system at
every path, same modified-file count); in `final_fix.py` a missing
explicit path is skipped but not reported (counterexample). -/
theorem C6_missing_path_reported (fs : FS) (l1 : List String) (p : String)
    (l2 : List String) (q : String) (h : fs p = FileState.absent) :
    ("文件不存在: " ++ p) ∈ (precise_loop fs (l1 ++ p :: l2)).2.2 ∧
    (precise_loop fs (l1 ++ p :: l2)).1 q = (precise_loop fs (l1 ++ l2)).1 q ∧
    (precise_loop fs (l1 ++ p :: l2)).2.1 = (precise_loop fs (l1 ++ l2)).2.1 :=
  precise_loop_insert fs l1 p l2 q h

/-- C6 witness: the configured list `problem_files` of
`final_precise_fix.py` with its second entry missing on disk. -/
theorem C6_missing_path_reported_witness :
    ("文件不存在: " ++ "src/main/modules/fileManager.ts") ∈ (final_precise_main fsC6).2.2 ∧
    (final_precise_main fsC6).1 "src/main/lyric.ts" =
      (precise_loop fsC6 ["src/main/lyric.ts", "src/main/modules/loginWindow.ts"]).1
        "src/main/lyric.ts" ∧
    (final_precise_main fsC6).2.1 =
      (precise_loop fsC6 ["src/main/lyric.ts", "src/main/modules/loginWindow.ts"]).2.1 :=
  C6_missing_path_reported fsC6 ["src/main/lyric.ts"] "src/main/modules/fileManager.ts"
    ["src/main/modules/loginWindow.ts"] "src/main/lyric.ts" (by decide)

/-- C7: target resolution deduplicates — for any configuration of glob
results, even with overlapping patterns, the resolved candidate list is
duplicate-free and contains each produced path exactly once. -/
theorem C7_deduplication (groups : List (List String)) (p : String)
    (h : ∃ g ∈ groups, p ∈ g) :
    (resolve_targets groups).Nodup ∧ (resolve_targets groups).count p = 1 :=
  ⟨List.nodup_dedup _,
   List.count_eq_one_of_mem (List.nodup_dedup _) ((mem_resolve_targets groups p).mpr h)⟩

/-- C7 witness: overlapping patterns both produce `b.ts`; it is resolved
exactly once. -/
theorem C7_deduplication_witness :
    (resolve_targets [["a.ts", "b.ts"], ["b.ts"]]).Nodup ∧
    (resolve_targets [["a.ts", "b.ts"], ["b.ts"]]).count "b.ts" = 1 :=
  C7_deduplication [["a.ts", "b.ts"], ["b.ts"]] "b.ts" (by decide)

/-- C8: per-file purity and order independence — the repaired content of
a readable file is exactly the script's transformation of its prior
content (a function of content and path alone), and running the loop
over any permutation of a duplicate-free candidate list yields the same
final file system at every path. -/
theorem C8_order_independence (fs : FS) (l l2 : List String) (p q c : String)
    (h : fs p = FileState.readable c) (hn : l.Nodup) (hp : l.Perm l2) :
    (fixFileG simple_transform fs p).fs p = FileState.readable (simple_fix_content c) ∧
    (fixFileG smart_transform fs p).fs p = FileState.readable (smart_transform p c) ∧
    (simple_fix_run fs l).1 q = (simple_fix_run fs l2).1 q ∧
    (smart_fix_run fs l).1 q = (smart_fix_run fs l2).1 q := by
  refine ⟨fixFileG_self simple_transform fs p c h, fixFileG_self smart_transform fs p c h,
    ?_, ?_⟩
  · simp only [simple_fix_run]
    rw [runFix_char _ _ _ _ hn, runFix_char _ _ _ _ (hp.nodup hn)]
    simp only [show (q ∈ l) ↔ (q ∈ l2) from hp.mem_iff]
  · simp only [smart_fix_run]
    rw [runFix_char _ _ _ _ hn, runFix_char _ _ _ _ (hp.nodup hn)]
    simp only [show (q ∈ l) ↔ (q ∈ l2) from hp.mem_iff]

/-- C8 witness: order independence at a concrete two-file candidate set
and its transposition. -/
theorem C8_order_independence_witness :
    (fixFileG simple_transform fsW1 "a.ts").fs "a.ts" =
      FileState.readable (simple_fix_content "x") ∧
    (fixFileG smart_transform fsW1 "a.ts").fs "a.ts" =
      FileState.readable (smart_transform "a.ts" "x") ∧
    (simple_fix_run fsW1 ["a.ts", "c.ts"]).1 "a.ts" =
      (simple_fix_run fsW1 ["c.ts", "a.ts"]).1 "a.ts" ∧
    (smart_fix_run fsW1 ["a.ts", "c.ts"]).1 "a.ts" =
      (smart_fix_run fsW1 ["c.ts", "a.ts"]).1 "a.ts" :=
  C8_order_independence fsW1 ["a.ts", "c.ts"] ["c.ts", "a.ts"] "a.ts" "a.ts" "x"
    (by decide) (by decide) (by decide)

/-- C9: the variants' rule tables are mutually inconsistent on the
malformed array-literal shape — on the same input `a[];`, `simple_fix.py`
produces `a[0];` while `smart_fix.py` leaves `a[];`; conversely
`smart_fix.py` rewrites the `[0]` form `a[0];` to `a[];` (which
`simple_fix.py` leaves alone), and `final_fix.py` rewrites its
`[0]`-form target line to the `[]` form. -/
theorem C9_rule_tables_conflict :
    simple_fix_content "a[];" = "a[0];" ∧
    fix_typescript_syntax "a[];" = "a[];" ∧
    fix_typescript_syntax "a[0];" = "a[];" ∧
    simple_fix_content "a[0];" = "a[0];" ∧
    cache_ts_fix "const toDelete: string[] = [0];" = "const toDelete: string[] = [];" := by
  decide

/-- C10: `fix_file`'s boolean result — for a readable file it returns
`True` exactly when the transformation changed the content, the result
always coincides with whether a write was performed, and a file whose
read fails or whose write would fail (write-protected) yields `False`
with no write, exactly like an unchanged one — so the caller cannot
tell an errored file from an unchanged one by the return value alone —
and an errored file contributes nothing to the aggregated
modified-file count, whether the error is a read or a write failure. -/
theorem C10_return_value (fs : FS) (p c : String) (files : List String) :
    (fs p = FileState.readable c →
      ((fixFileG simple_transform fs p).ret = true ↔ simple_fix_content c ≠ c)) ∧
    ((fixFileG simple_transform fs p).ret = (fixFileG simple_transform fs p).wrote) ∧
    ((fixFileG smart_transform fs p).ret = (fixFileG smart_transform fs p).wrote) ∧
    (fs p = FileState.unreadable →
      (fixFileG simple_transform fs p).ret = false ∧
      (fixFileG smart_transform fs p).ret = false) ∧
    (fs p = FileState.readOnly c →
      (fixFileG simple_transform fs p).ret = false ∧
      (fixFileG simple_transform fs p).wrote = false ∧
      (fixFileG smart_transform fs p).ret = false ∧
      (fixFileG smart_transform fs p).wrote = false) ∧
    (fs p = FileState.unreadable →
      (simple_fix_run fs (p :: files)).2.1 = (simple_fix_run fs files).2.1) ∧
    (fs p = FileState.readOnly c →
      (simple_fix_run fs (p :: files)).2.1 = (simple_fix_run fs files).2.1) := by
  refine ⟨fun h => fixFileG_ret_iff simple_transform fs p c h,
    fixFileG_ret_eq_wrote simple_transform fs p,
    fixFileG_ret_eq_wrote smart_transform fs p,
    fun h => ⟨?_, ?_⟩, fun h => ?_, fun h => ?_, fun h => ?_⟩
  · rw [fixFileG_unreadable simple_transform fs p h]
  · rw [fixFileG_unreadable smart_transform fs p h]
  · obtain ⟨a1, a2, _⟩ := fixFileG_readOnly simple_transform fs p c h
    obtain ⟨b1, b2, _⟩ := fixFileG_readOnly smart_transform fs p c h
    exact ⟨a1, a2, b1, b2⟩
  · simp [simple_fix_run, runFix, fixFileG_unreadable simple_transform fs p h]
  · obtain ⟨a1, _, a3⟩ := fixFileG_readOnly simple_transform fs p c h
    simp [simple_fix_run, runFix, a1, a3]

/-- C10 witness: four concrete instances — the readable unchanged file
`a.ts` (`False`, no write), the readable file `f.ts` whose content
`a[];` the rules change (`True` and a write), the unreadable file
`b.ts` (read failure, `False`, excluded from the count), and the
write-protected file `d.ts` whose content the rules would change
(write failure, `False`, no write, excluded from the count). -/
theorem C10_return_value_witness :
    ((fsW1 "a.ts" = FileState.readable "x" →
      ((fixFileG simple_transform fsW1 "a.ts").ret = true ↔ simple_fix_content "x" ≠ "x")) ∧
    ((fixFileG simple_transform fsW1 "a.ts").ret = (fixFileG simple_transform fsW1 "a.ts").wrote) ∧
    ((fixFileG smart_transform fsW1 "a.ts").ret = (fixFileG smart_transform fsW1 "a.ts").wrote) ∧
    (fsW1 "a.ts" = FileState.unreadable →
      (fixFileG simple_transform fsW1 "a.ts").ret = false ∧
      (fixFileG smart_transform fsW1 "a.ts").ret = false) ∧
    (fsW1 "a.ts" = FileState.readOnly "x" →
      (fixFileG simple_transform fsW1 "a.ts").ret = false ∧
      (fixFileG simple_transform fsW1 "a.ts").wrote = false ∧
      (fixFileG smart_transform fsW1 "a.ts").ret = false ∧
      (fixFileG smart_transform fsW1 "a.ts").wrote = false) ∧
    (fsW1 "a.ts" = FileState.unreadable →
      (simple_fix_run fsW1 ("a.ts" :: ["b.ts"])).2.1 = (simple_fix_run fsW1 ["b.ts"]).2.1) ∧
    (fsW1 "a.ts" = FileState.readOnly "x" →
      (simple_fix_run fsW1 ("a.ts" :: ["b.ts"])).2.1 = (simple_fix_run fsW1 ["b.ts"]).2.1)) ∧
    ((fsW1 "b.ts" = FileState.readable "x" →
      ((fixFileG simple_transform fsW1 "b.ts").ret = true ↔ simple_fix_content "x" ≠ "x")) ∧
    ((fixFileG simple_transform fsW1 "b.ts").ret = (fixFileG simple_transform fsW1 "b.ts").wrote) ∧
    ((fixFileG smart_transform fsW1 "b.ts").ret = (fixFileG smart_transform fsW1 "b.ts").wrote) ∧
    (fsW1 "b.ts" = FileState.unreadable →
      (fixFileG simple_transform fsW1 "b.ts").ret = false ∧
      (fixFileG smart_transform fsW1 "b.ts").ret = false) ∧
    (fsW1 "b.ts" = FileState.readOnly "x" →
      (fixFileG simple_transform fsW1 "b.ts").ret = false ∧
      (fixFileG simple_transform fsW1 "b.ts").wrote = false ∧
      (fixFileG smart_transform fsW1 "b.ts").ret = false ∧
      (fixFileG smart_transform fsW1 "b.ts").wrote = false) ∧
    (fsW1 "b.ts" = FileState.unreadable →
      (simple_fix_run fsW1 ("b.ts" :: ["a.ts"])).2.1 = (simple_fix_run fsW1 ["a.ts"]).2.1) ∧
    (fsW1 "b.ts" = FileState.readOnly "x" →
      (simple_fix_run fsW1 ("b.ts" :: ["a.ts"])).2.1 = (simple_fix_run fsW1 ["a.ts"]).2.1)) ∧
    ((fsW1 "f.ts" = FileState.readable "a[];" →
      ((fixFileG simple_transform fsW1 "f.ts").ret = true ↔
        simple_fix_content "a[];" ≠ "a[];")) ∧
    ((fixFileG simple_transform fsW1 "f.ts").ret = (fixFileG simple_transform fsW1 "f.ts").wrote) ∧
    ((fixFileG smart_transform fsW1 "f.ts").ret = (fixFileG smart_transform fsW1 "f.ts").wrote) ∧
    (fsW1 "f.ts" = FileState.unreadable →
      (fixFileG simple_transform fsW1 "f.ts").ret = false ∧
      (fixFileG smart_transform fsW1 "f.ts").ret = false) ∧
    (fsW1 "f.ts" = FileState.readOnly "a[];" →
      (fixFileG simple_transform fsW1 "f.ts").ret = false ∧
      (fixFileG simple_transform fsW1 "f.ts").wrote = false ∧
      (fixFileG smart_transform fsW1 "f.ts").ret = false ∧
      (fixFileG smart_transform fsW1 "f.ts").wrote = false) ∧
    (fsW1 "f.ts" = FileState.unreadable →
      (simple_fix_run fsW1 ("f.ts" :: ["a.ts"])).2.1 = (simple_fix_run fsW1 ["a.ts"]).2.1) ∧
    (fsW1 "f.ts" = FileState.readOnly "a[];" →
      (simple_fix_run fsW1 ("f.ts" :: ["a.ts"])).2.1 = (simple_fix_run fsW1 ["a.ts"]).2.1)) ∧
    ((fsW1 "d.ts" = FileState.readable "(a:, b) [];" →
      ((fixFileG simple_transform fsW1 "d.ts").ret = true ↔
        simple_fix_content "(a:, b) [];" ≠ "(a:, b) [];")) ∧
    ((fixFileG simple_transform fsW1 "d.ts").ret = (fixFileG simple_transform fsW1 "d.ts").wrote) ∧
    ((fixFileG smart_transform fsW1 "d.ts").ret = (fixFileG smart_transform fsW1 "d.ts").wrote) ∧
    (fsW1 "d.ts" = FileState.unreadable →
      (fixFileG simple_transform fsW1 "d.ts").ret = false ∧
      (fixFileG smart_transform fsW1 "d.ts").ret = false) ∧
    (fsW1 "d.ts" = FileState.readOnly "(a:, b) [];" →
      (fixFileG simple_transform fsW1 "d.ts").ret = false ∧
      (fixFileG simple_transform fsW1 "d.ts").wrote = false ∧
      (fixFileG smart_transform fsW1 "d.ts").ret = false ∧
      (fixFileG smart_transform fsW1 "d.ts").wrote = false) ∧
    (fsW1 "d.ts" = FileState.unreadable →
      (simple_fix_run fsW1 ("d.ts" :: ["a.ts"])).2.1 = (simple_fix_run fsW1 ["a.ts"]).2.1) ∧
    (fsW1 "d.ts" = FileState.readOnly "(a:, b) [];" →
      (simple_fix_run fsW1 ("d.ts" :: ["a.ts"])).2.1 = (simple_fix_run fsW1 ["a.ts"]).2.1)) :=
  ⟨C10_return_value fsW1 "a.ts" "x" ["b.ts"],
   C10_return_value fsW1 "b.ts" "x" ["a.ts"],
   C10_return_value fsW1 "f.ts" "a[];" ["a.ts"],
   C10_return_value fsW1 "d.ts" "(a:, b) [];" ["a.ts"]⟩

end MusicFix
